import Mathlib

/-!
Shallow embedding of the core of the `connect-googledrive` connector
(`apps/api/clients/googledrive.py`, `apps/api/services/{files,sync_state,
token_store,watch}.py`).

Conventions of the embedding:
* Timestamps are modelled as `Int` (seconds); `datetime.now(timezone.utc)` is
  an explicit `now : Int` parameter.
* Python `str | None` values are `Option String`; Python truthiness of such a
  value (`if s:`) is `strTruthy` (both `None` and the empty string are falsy).
* Network I/O is modelled by oracle parameters describing what the remote
  endpoint would answer; the embedding counts the calls that are made.
* Database `commit` granularity follows the source: each service method that
  commits is one pure state transformation on the in-memory table.
-/

namespace GDrive

/-- Python truthiness of an optional string: `None` and `""` are falsy. -/
def strTruthy : Option String → Bool
  | none => false
  | some s => !(s == "")

/-- Python `a or b` on optional strings. -/
def pyOr (a b : Option String) : Option String :=
  if strTruthy a then a else b

/-- The configuration fields of `Settings` that the embedded core reads. -/
structure Settings where
  googledrive_default_account_id : String
  googledrive_service_account_key_path : Option String
  googledrive_refresh_token : Option String
  googledrive_scopes : List String

/-- `acct = account_id or self._default_account_id` (googledrive.py:72). -/
def resolveAccount (settings : Settings) (account_id : Option String) : String :=
  if strTruthy account_id then account_id.getD "" else settings.googledrive_default_account_id

/-- `DriveAPIError` / `DriveRetriableError` (googledrive.py:26-36); `retriable`
marks the `DriveRetriableError` subclass. The payload is omitted. -/
structure DriveAPIError where
  message : String
  status_code : Nat
  retriable : Bool
deriving DecidableEq, Repr

/-- `AccessToken` dataclass (googledrive.py:39-50). -/
structure AccessToken where
  token : String
  expires_at : Option Int
deriving DecidableEq, Repr

/-- `AccessToken.is_valid` (googledrive.py:44-50): valid when there is no
expiry, or the expiry is more than 60 seconds in the future. -/
def AccessToken.is_valid (t : AccessToken) (now : Int) : Bool :=
  match t.expires_at with
  | none => true
  | some e => decide (now < e - 60)

/-- A `token_credentials` row (database/models.py:12-22). -/
structure TokenCredential where
  account_id : String
  access_token : Option String
  refresh_token : Option String
  expires_at : Option Int
  scopes : Option String
  is_service_account : Bool
deriving DecidableEq, Repr

/-- `TokenRepository.get_credentials` (token_store.py:16-19): the row keyed by
`account_id` (unique constraint: at most one row per account). -/
def get_credentials (repo : List TokenCredential) (account_id : String) :
    Option TokenCredential :=
  repo.find? (fun r => r.account_id == account_id)

/-- The field updates `TokenRepository.upsert_credentials` applies to an
existing row (token_store.py:34-41): the access token and expiry are always
overwritten, the refresh token and scopes only when the new value is truthy. -/
def applyCredentialUpdate (rec : TokenCredential) (now : Int) (access_token : String)
    (refresh_token : Option String) (expires_in : Int) (scopes : Option String)
    (is_service_account : Bool) : TokenCredential :=
  { rec with
      access_token := some access_token
      refresh_token := if strTruthy refresh_token then refresh_token else rec.refresh_token
      expires_at := some (now + expires_in)
      scopes := if strTruthy scopes then scopes else rec.scopes
      is_service_account := is_service_account }

/-- `TokenRepository.upsert_credentials` (token_store.py:21-55): update the
row keyed by the account (there is at most one, by the unique constraint), or
insert a new one. -/
def upsert_credentials : List TokenCredential → Int → String → String →
    Option String → Int → Option String → Bool → List TokenCredential
  | [], now, account_id, access_token, refresh_token, expires_in, scopes, is_sa =>
      [{ account_id := account_id
         access_token := some access_token
         refresh_token := refresh_token
         expires_at := some (now + expires_in)
         scopes := scopes
         is_service_account := is_sa }]
  | rec :: rest, now, account_id, access_token, refresh_token, expires_in, scopes, is_sa =>
      if rec.account_id == account_id then
        applyCredentialUpdate rec now access_token refresh_token expires_in scopes is_sa
          :: rest
      else
        rec :: upsert_credentials rest now account_id access_token refresh_token
          expires_in scopes is_sa

/-- The in-memory token cache `self._tokens : dict[str, AccessToken]`. -/
abbrev TokenCache := List (String × AccessToken)

/-- Dictionary lookup `self._tokens.get(acct)`. -/
def cacheGet (tokens : TokenCache) (acct : String) : Option AccessToken :=
  (List.find? (fun p => p.1 == acct) tokens).map (fun p => p.2)

/-- Dictionary assignment `self._tokens[acct] = token`: replace the entry for
the key if present, otherwise append it. -/
def cacheSet : TokenCache → String → AccessToken → TokenCache
  | [], acct, t => [(acct, t)]
  | p :: rest, acct, t =>
      if p.1 == acct then (acct, t) :: rest else p :: cacheSet rest acct t

/-- `OAuthTokenProvider.invalidate` (googledrive.py:171-174): drop the cached
entry for the account, if present. -/
def cacheDel (tokens : TokenCache) (acct : String) : TokenCache :=
  List.filter (fun p => !(p.1 == acct)) tokens

/-- The JSON body answered by the OAuth token endpoint, as read by
`get_token` (googledrive.py:141-145): `data.get("expires_in", 3600)`,
`data["access_token"]`, `data.get("refresh_token")`, `data.get("scope")`. -/
structure TokenEndpointData where
  access_token : String
  expires_in : Option Int
  refresh_token : Option String
  scope : Option String
deriving DecidableEq, Repr

/-- Oracle for the form-encoded POST to the token endpoint: the HTTP status
and the parsed JSON body the endpoint would answer with. -/
structure ExchangeResponse where
  status : Nat
  data : TokenEndpointData
deriving DecidableEq, Repr

/-- Result of one `OAuthTokenProvider.get_token` call: the returned token or
the raised `DriveAPIError`, the in-memory cache and repository afterwards, and
how many token-exchange network calls (refresh-token POST or service-account
refresh) were performed. -/
structure GetTokenOutcome where
  result : Except DriveAPIError String
  tokens : TokenCache
  repo : Option (List TokenCredential)
  exchanges : Nat
deriving Repr

/-- The valid stored access token `get_token` would adopt from the credential
store, if any (googledrive.py:96-101): the row must exist and have a truthy
access token and a non-null expiry, and the resulting `AccessToken` must be
valid at `now`. -/
def storedValidAccessToken (repo : Option (List TokenCredential)) (acct : String)
    (now : Int) : Option AccessToken :=
  match repo with
  | none => none
  | some r =>
      match get_credentials r acct with
      | none => none
      | some rec =>
          if strTruthy rec.access_token && rec.expires_at.isSome then
            let access_token : AccessToken :=
              { token := rec.access_token.getD "", expires_at := rec.expires_at }
            if access_token.is_valid now then some access_token else none
          else none

/-- The refresh token and scopes `get_token` gathers from the stored
credential row (googledrive.py:102-104): taken only when the row exists and
its refresh token is truthy. -/
def storedRefreshToken (repo : Option (List TokenCredential)) (acct : String) :
    Option String × Option String :=
  match repo with
  | none => (none, none)
  | some r =>
      match get_credentials r acct with
      | none => (none, none)
      | some rec =>
          if strTruthy rec.refresh_token then (rec.refresh_token, rec.scopes)
          else (none, none)

/-- `OAuthTokenProvider.get_token` (googledrive.py:71-169). Oracles:
`sa` is what `_obtain_service_account_token` would produce (googledrive.py:176-181),
`exch` is what the token endpoint would answer to the refresh POST
(googledrive.py:124-130). Every path of the source is represented; the
`exchanges` field counts the token-exchange network calls actually reached. -/
def get_token (settings : Settings) (tokens : TokenCache)
    (repo : Option (List TokenCredential)) (account_id : Option String) (now : Int)
    (sa : Except DriveAPIError AccessToken) (exch : ExchangeResponse) :
    GetTokenOutcome :=
  let acct := resolveAccount settings account_id
  match cacheGet tokens acct with
  | some cached =>
      if cached.is_valid now then
        { result := .ok cached.token, tokens := tokens, repo := repo, exchanges := 0 }
      else get_token_uncached settings tokens repo acct now sa exch
  | none => get_token_uncached settings tokens repo acct now sa exch
where
  /-- The body of `get_token` after the cache check failed (googledrive.py:78-169). -/
  get_token_uncached (settings : Settings) (tokens : TokenCache)
      (repo : Option (List TokenCredential)) (acct : String) (now : Int)
      (sa : Except DriveAPIError AccessToken) (exch : ExchangeResponse) :
      GetTokenOutcome :=
    if strTruthy settings.googledrive_service_account_key_path then
      -- service-account mode (googledrive.py:78-91)
      match sa with
      | .error e => { result := .error e, tokens := tokens, repo := repo, exchanges := 1 }
      | .ok token =>
          let tokens := cacheSet tokens acct token
          let repo :=
            match repo, token.expires_at with
            | some r, some e =>
                some (upsert_credentials r now acct token.token none (max (e - now) 0)
                  (some (String.intercalate " " settings.googledrive_scopes)) true)
            | some r, none => some r
            | none, _ => none
          { result := .ok token.token, tokens := tokens, repo := repo, exchanges := 1 }
    else
      -- refresh-token mode (googledrive.py:93-169)
      match storedValidAccessToken repo acct now with
      | some access_token =>
          { result := .ok access_token.token
            tokens := cacheSet tokens acct access_token
            repo := repo
            exchanges := 0 }
      | none =>
          let fromStore := storedRefreshToken repo acct
          let refresh_token := pyOr fromStore.1 settings.googledrive_refresh_token
          let scopes := fromStore.2
          if !(strTruthy refresh_token) then
            { result := .error
                { message := "No refresh token configured for Google Drive connector"
                  status_code := 401, retriable := false }
              tokens := tokens, repo := repo, exchanges := 0 }
          else if exch.status ≥ 400 then
            { result := .error
                { message := "Failed to refresh Google Drive access token"
                  status_code := exch.status, retriable := false }
              tokens := tokens, repo := repo, exchanges := 1 }
          else
            let expires_in := exch.data.expires_in.getD 3600
            let access_token := exch.data.access_token
            let refresh_from_response := pyOr exch.data.refresh_token refresh_token
            let scopes_from_response := pyOr exch.data.scope scopes
            let token : AccessToken :=
              { token := access_token, expires_at := some (now + expires_in) }
            let tokens := cacheSet tokens acct token
            let repo :=
              match repo with
              | some r =>
                  some (upsert_credentials r now acct access_token refresh_from_response
                    expires_in scopes_from_response false)
              | none => none
            { result := .ok access_token, tokens := tokens, repo := repo, exchanges := 1 }

/-- `OAuthTokenProvider.invalidate` (googledrive.py:171-174). -/
def invalidate (settings : Settings) (tokens : TokenCache)
    (account_id : Option String) : TokenCache :=
  cacheDel tokens (resolveAccount settings account_id)

/-- Oracle for one HTTP attempt inside `GoogleDriveClient._request`: either
the transport raises (`httpx.TransportError`) or a response with the given
status arrives. -/
inductive AttemptOutcome
  | transportError
  | response (status : Nat) (body : String)
deriving DecidableEq, Repr

/-- An exception escaping one attempt body: a transport error or a
`DriveAPIError`/`DriveRetriableError`. -/
inductive AttemptException
  | transport
  | api (e : DriveAPIError)
deriving DecidableEq, Repr

/-- The tenacity predicate `retry_if_exception_type((httpx.TransportError,
DriveRetriableError))` (googledrive.py:246). -/
def exceptionRetriable : AttemptException → Bool
  | .transport => true
  | .api e => e.retriable

/-- What a `GoogleDriveClient._request` call raises or returns to its caller:
a successful response, a `DriveAPIError` propagated as-is (non-retriable
classification, or a token-provider failure), or a `tenacity.RetryError`
wrapping the last attempt exception after the retry policy is exhausted. -/
inductive RequestResult
  | success (status : Nat) (body : String)
  | fatal (e : DriveAPIError)
  | retryError (last : AttemptException)
deriving DecidableEq, Repr

/-- `stop_after_attempt(5)` (googledrive.py:245). -/
def requestMaxAttempts : Nat := 5

/-- The retry loop of `GoogleDriveClient._request` (googledrive.py:254-290)
under tenacity semantics: each attempt executes the body; a raised
exception is retried when `exceptionRetriable` holds and attempts remain,
re-raised unchanged when not retriable, and wrapped in a `RetryError` when
the stop condition (5 attempts) is reached. A `401` response invalidates the
cached token before raising a retriable error (googledrive.py:268-275);
`429`/`5xx` raise retriable errors, other `4xx` raise fatal errors. Returns
the result, the token cache afterwards, and the number of attempts made. -/
def request_go (settings : Settings) (account_id : Option String)
    (oracle : Nat → AttemptOutcome) :
    Nat → TokenCache → Nat → RequestResult × TokenCache × Nat
  | 0, tokens, made => (.retryError .transport, tokens, made)
  | fuel + 1, tokens, made =>
      let n := made + 1
      match oracle n with
      | .transportError =>
          if fuel = 0 then (.retryError .transport, tokens, n)
          else request_go settings account_id oracle fuel tokens n
      | .response status body =>
          if status == 401 then
            let tokens := invalidate settings tokens account_id
            let e : AttemptException :=
              .api { message := "Unauthorized request", status_code := 401, retriable := true }
            if fuel = 0 then (.retryError e, tokens, n)
            else request_go settings account_id oracle fuel tokens n
          else if status == 429 || status ≥ 500 then
            let e : AttemptException :=
              .api { message := "Drive API throttled or server error"
                     status_code := status, retriable := true }
            if fuel = 0 then (.retryError e, tokens, n)
            else request_go settings account_id oracle fuel tokens n
          else if status ≥ 400 then
            (.fatal { message := "Drive API returned error", status_code := status
                      retriable := false }, tokens, n)
          else (.success status body, tokens, n)

/-- Outcome of one full `GoogleDriveClient._request` call. -/
structure RequestOutcome where
  result : RequestResult
  tokens : TokenCache
  repo : Option (List TokenCredential)
  attempts : Nat
  exchanges : Nat
deriving Repr

/-- `GoogleDriveClient._request` (googledrive.py:223-299): obtain a bearer
token once via the provider (googledrive.py:235), then run the retry loop.
A token-provider failure propagates before any HTTP attempt. The metrics
emission in the `finally` block is not modelled. -/
def drive_request (settings : Settings) (tokens : TokenCache)
    (repo : Option (List TokenCredential)) (account_id : Option String) (now : Int)
    (sa : Except DriveAPIError AccessToken) (exch : ExchangeResponse)
    (oracle : Nat → AttemptOutcome) : RequestOutcome :=
  let g := get_token settings tokens repo account_id now sa exch
  match g.result with
  | .error e =>
      { result := .fatal e, tokens := g.tokens, repo := g.repo
        attempts := 0, exchanges := g.exchanges }
  | .ok _ =>
      let rl := request_go settings account_id oracle requestMaxAttempts g.tokens 0
      { result := rl.1, tokens := rl.2.1, repo := g.repo
        attempts := rl.2.2, exchanges := g.exchanges }

/-- A `sync_checkpoints` row (database/models.py:25-33). -/
structure SyncCheckpoint where
  account_id : String
  resource : String
  cursor : Option String
  last_synced_at : Option Int
deriving DecidableEq, Repr

/-- `SyncStateService.get_checkpoint` (sync_state.py:18-25): the row keyed by
`(account_id, resource)` (unique constraint). -/
def get_checkpoint (store : List SyncCheckpoint) (account_id resource : String) :
    Option SyncCheckpoint :=
  store.find? (fun c => c.account_id == account_id && c.resource == resource)

/-- `SyncStateService.upsert_checkpoint` (sync_state.py:27-48): overwrite the
cursor and last-synced timestamp of the row keyed by `(account_id, resource)`
(there is at most one, by the unique constraint), or insert a new row. -/
def upsert_checkpoint : List SyncCheckpoint → String → String → Option String →
    Option Int → List SyncCheckpoint
  | [], account_id, resource, cursor, last_synced_at =>
      [{ account_id := account_id, resource := resource
         cursor := cursor, last_synced_at := last_synced_at }]
  | c :: rest, account_id, resource, cursor, last_synced_at =>
      if c.account_id == account_id && c.resource == resource then
        { c with cursor := cursor, last_synced_at := last_synced_at } :: rest
      else c :: upsert_checkpoint rest account_id resource cursor last_synced_at

/-- The parsed JSON of a Drive `changes.list` response as `sync_changes`
reads it: `payload.get("changes", [])`, `payload.get("newStartPageToken")`,
`payload.get("nextPageToken")`. Change records are kept abstract. -/
structure ChangesPayload where
  changes : List String
  newStartPageToken : Option String
  nextPageToken : Option String
deriving DecidableEq, Repr

/-- A Drive API call issued by `sync_changes`, for the call trace. -/
inductive ApiCall
  | getStartPageToken
  | listChanges (page_token : String) (page_size : Nat)
deriving DecidableEq, Repr

/-- The dict `DriveFileService.sync_changes` returns (files.py:110-115,
132-137). -/
structure SyncResult where
  changes : List String
  cursor : String
  initialised : Bool
  has_more : Bool
deriving DecidableEq, Repr

/-- `DriveFileService.sync_changes` (files.py:99-137). The client calls are
oracles: `startResp` is what `get_start_page_token` would produce, and
`changesResp` what `list_changes` would produce for the current cursor; an
`Except.error` models the call raising (after the retrying inside the pipeline).
Returns the result or propagated error, the checkpoint store afterwards, and
the trace of Drive API calls issued. -/
def sync_changes (store : List SyncCheckpoint) (account_id resource : String)
    (page_size : Nat) (now : Int)
    (startResp : Except DriveAPIError String)
    (changesResp : Except DriveAPIError ChangesPayload) :
    Except DriveAPIError SyncResult × List SyncCheckpoint × List ApiCall :=
  let checkpoint := get_checkpoint store account_id resource
  let uninitialised :=
    match checkpoint with
    | none => true
    | some cp => !(strTruthy cp.cursor)
  if uninitialised then
    match startResp with
    | .error e => (.error e, store, [.getStartPageToken])
    | .ok start_token =>
        (.ok { changes := [], cursor := start_token, initialised := true, has_more := false },
         upsert_checkpoint store account_id resource (some start_token) (some now),
         [.getStartPageToken])
  else
    let cursor := (match checkpoint with | some cp => cp.cursor | none => none).getD ""
    match changesResp with
    | .error e => (.error e, store, [.listChanges cursor page_size])
    | .ok payload =>
        let new_cursor :=
          (pyOr payload.newStartPageToken (pyOr payload.nextPageToken (some cursor))).getD ""
        (.ok { changes := payload.changes, cursor := new_cursor, initialised := false
               has_more := strTruthy payload.nextPageToken },
         upsert_checkpoint store account_id resource (some new_cursor) (some now),
         [.listChanges cursor page_size])

/-- A `watch_channels` row (database/models.py:57-67). -/
structure WatchChannel where
  channel_id : String
  resource_id : Option String
  resource_uri : Option String
  expiration : Option Int
  token : Option String
  account_id : String
  kind : String
deriving DecidableEq, Repr

/-- `WatchService.get_channel` (watch.py:28-31): the row keyed by
`channel_id` (unique column). -/
def get_channel (channels : List WatchChannel) (channel_id : String) :
    Option WatchChannel :=
  channels.find? (fun c => c.channel_id == channel_id)

/-- `WatchService.ensure_valid_channel` (watch.py:108-114): a `PermissionError`
is modelled as `Except.error` with the raised message. -/
def ensure_valid_channel (channels : List WatchChannel) (channel_id : String)
    (token : Option String) : Except String WatchChannel :=
  match get_channel channels channel_id with
  | none => .error "Unknown channel"
  | some record =>
      if strTruthy record.token && !(token == record.token) then
        .error "Invalid channel token"
      else .ok record

/-- The renewal guard in `WatchService.renew_channels` (watch.py:121): the
channel is skipped when its expiration is null or more than `threshold`
away from `now`; it is renewed otherwise. -/
def needsRenewal (c : WatchChannel) (now threshold : Int) : Bool :=
  match c.expiration with
  | none => false
  | some e => !(decide (e - now > threshold))

/-- Local deletion of a channel row (watch.py:79-81). -/
def removeChannel (channels : List WatchChannel) (channel_id : String) :
    List WatchChannel :=
  channels.filter (fun c => !(c.channel_id == channel_id))

/-- Oracle for one delete-and-re-register step of `renew_channels`
(watch.py:123-124): `ok` means `delete_watch` and `register_changes_watch`
both succeeded and the freshly registered row is `newChannel`; `deleteFails`
means the remote `stop_channel` call raised (so the local row is kept,
watch.py:73-82); `registerFails` means the local row was deleted but the
re-registration raised. -/
inductive RenewStep
  | ok (newChannel : WatchChannel)
  | deleteFails (e : DriveAPIError)
  | registerFails (e : DriveAPIError)
deriving Repr

/-- The loop of `WatchService.renew_channels` (watch.py:120-126) over the
snapshot of channels taken at entry, threading the live store. The step
oracle is consumed once per channel that needs renewal. An exception
propagates immediately; the ids accumulated so far are lost. -/
def renew_go (now threshold : Int) (steps : Nat → RenewStep) :
    List WatchChannel → List WatchChannel → Nat → List String →
    Except DriveAPIError (List String) × List WatchChannel
  | [], store, _, renewed => (.ok renewed.reverse, store)
  | c :: rest, store, i, renewed =>
      if needsRenewal c now threshold then
        match steps i with
        | .deleteFails e => (.error e, store)
        | .registerFails e => (.error e, removeChannel store c.channel_id)
        | .ok newChannel =>
            renew_go now threshold steps rest
              (removeChannel store c.channel_id ++ [newChannel]) (i + 1)
              (newChannel.channel_id :: renewed)
      else renew_go now threshold steps rest store i renewed

/-- `WatchService.renew_channels` (watch.py:116-126): scan the current list of
channels (`list_channels`, watch.py:119), renewing each one due. -/
def renew_channels (store : List WatchChannel) (now threshold : Int)
    (steps : Nat → RenewStep) :
    Except DriveAPIError (List String) × List WatchChannel :=
  renew_go now threshold steps store store 0 []

/-- The channels a `renew_channels` scan will renew: those passing the
renewal guard, in scan order. -/
def dueChannels (now threshold : Int) (snapshot : List WatchChannel) :
    List WatchChannel :=
  snapshot.filter (fun c => needsRenewal c now threshold)

/-- Folding `removeChannel` over a list of channel ids. -/
def removeChannels (store : List WatchChannel) (ids : List String) :
    List WatchChannel :=
  ids.foldl removeChannel store

/-- The consecutive replacement channels `f i, f (i+1), ...` taken from the
step oracle, `n` of them. -/
def newsFrom (f : Nat → WatchChannel) (i n : Nat) : List WatchChannel :=
  (List.range n).map (fun k => f (i + k))

/-- A sequence of `get_token` calls at the given times, each starting from
the cache and repository state the previous call left behind. Returns the
list of per-call results, the final cache and repository, and the total
number of token-exchange network calls across the sequence. -/
def get_token_seq (settings : Settings) (tokens : TokenCache)
    (repo : Option (List TokenCredential)) (account_id : Option String)
    (sa : Except DriveAPIError AccessToken) (exch : ExchangeResponse) :
    List Int →
    List (Except DriveAPIError String) × TokenCache × Option (List TokenCredential) × Nat
  | [] => ([], tokens, repo, 0)
  | now :: rest =>
      let g := get_token settings tokens repo account_id now sa exch
      let r := get_token_seq settings g.tokens g.repo account_id sa exch rest
      (g.result :: r.1, r.2.1, r.2.2.1, g.exchanges + r.2.2.2)

/-! ## Concrete fixtures used by witnesses and counterexamples -/

/-- Fixture: settings in refresh-token mode (no service-account key path),
default account `"acct"`, a statically configured refresh token. -/
def settingsFx : Settings :=
  { googledrive_default_account_id := "acct"
    googledrive_service_account_key_path := none
    googledrive_refresh_token := some "rt"
    googledrive_scopes := [] }

/-- Fixture: a service-account oracle for runs that never reach it. -/
def saFx : Except DriveAPIError AccessToken :=
  .error { message := "unused", status_code := 500, retriable := false }

/-- Fixture: token endpoint answering a fresh token valid for an hour. -/
def exchFx : ExchangeResponse :=
  { status := 200
    data := { access_token := "tok-1", expires_in := some 3600
              refresh_token := none, scope := none } }

/-- Fixture: a stored credential for `"acct"` holding the same access token
`"stale"` that is cached in memory, not yet expired. -/
def repoFx : List TokenCredential :=
  [{ account_id := "acct", access_token := some "stale", refresh_token := some "rt"
     expires_at := some 10000, scopes := none, is_service_account := false }]

/-- Fixture: an endpoint answering 401 on the first attempt, then 200. -/
def oracle401Fx : Nat → AttemptOutcome :=
  fun n => if n == 1 then .response 401 "" else .response 200 "ok"

/-- Fixture: three watch channels expiring an hour ago, in half an hour, and
in ten hours. -/
def chanFx : Nat → WatchChannel
  | 0 => { channel_id := "c1", resource_id := none, resource_uri := none
           expiration := some (-3600), token := none, account_id := "acct", kind := "changes" }
  | 1 => { channel_id := "c2", resource_id := none, resource_uri := none
           expiration := some 1800, token := none, account_id := "acct", kind := "changes" }
  | _ => { channel_id := "c3", resource_id := none, resource_uri := none
           expiration := some 36000, token := none, account_id := "acct", kind := "changes" }

/-- Fixture: the replacement channels a renewal run registers. -/
def newChanFx : Nat → WatchChannel
  | 0 => { channel_id := "n1", resource_id := some "r1", resource_uri := none
           expiration := some 90000, token := some "s1", account_id := "acct", kind := "changes" }
  | 1 => { channel_id := "n2", resource_id := some "r2", resource_uri := none
           expiration := some 90000, token := some "s2", account_id := "acct", kind := "changes" }
  | _ => { channel_id := "nx", resource_id := none, resource_uri := none
           expiration := some 90000, token := none, account_id := "acct", kind := "changes" }

/-! ## Helper lemmas -/

theorem cacheGet_set (tokens : TokenCache) (acct : String) (t : AccessToken) :
    cacheGet (cacheSet tokens acct t) acct = some t := by
  induction tokens with
  | nil => simp [cacheGet, cacheSet, List.find?]
  | cons p rest ih =>
      by_cases h : p.1 = acct
      · simp [cacheGet, cacheSet, List.find?, h]
      · simpa [cacheGet, cacheSet, List.find?, h] using ih

theorem cacheGet_del (tokens : TokenCache) (acct : String) :
    cacheGet (cacheDel tokens acct) acct = none := by
  induction tokens with
  | nil => simp [cacheGet, cacheDel]
  | cons p rest ih =>
      by_cases h : p.1 = acct
      · simp [cacheGet, cacheDel, h]
      · simp [cacheGet, cacheDel, List.find?, h]

theorem get_token_cache_hit (settings : Settings) (tokens : TokenCache)
    (repo : Option (List TokenCredential)) (account_id : Option String) (now : Int)
    (sa : Except DriveAPIError AccessToken) (exch : ExchangeResponse)
    (cached : AccessToken)
    (hcache : cacheGet tokens (resolveAccount settings account_id) = some cached)
    (hvalid : cached.is_valid now = true) :
    get_token settings tokens repo account_id now sa exch
      = { result := .ok cached.token, tokens := tokens, repo := repo, exchanges := 0 } := by
  simp [get_token, hcache, hvalid]

theorem get_token_uncached_cached_after
    (settings : Settings) (tokens : TokenCache)
    (repo : Option (List TokenCredential)) (acct : String) (now : Int)
    (sa : Except DriveAPIError AccessToken) (exch : ExchangeResponse) (tok : String)
    (h : (get_token.get_token_uncached settings tokens repo acct now sa exch).result
          = .ok tok) :
    ∃ c, cacheGet (get_token.get_token_uncached settings tokens repo acct now sa exch).tokens
        acct = some c ∧ c.token = tok := by
  unfold get_token.get_token_uncached at h ⊢
  cases hsa : strTruthy settings.googledrive_service_account_key_path with
  | true =>
      simp only [hsa, if_true] at h ⊢
      cases sa with
      | error e => simp at h
      | ok token =>
          refine ⟨token, ?_, ?_⟩
          · simp [cacheGet_set]
          · simpa using h
  | false =>
      simp only [hsa, Bool.false_eq_true, if_false] at h ⊢
      cases hsv : storedValidAccessToken repo acct now with
      | some access_token =>
          simp only [hsv] at h ⊢
          refine ⟨access_token, ?_, ?_⟩
          · simp [cacheGet_set]
          · simpa using h
      | none =>
          simp only [hsv] at h ⊢
          cases hrt : strTruthy (pyOr (storedRefreshToken repo acct).1
              settings.googledrive_refresh_token) with
          | false => simp [hrt] at h
          | true =>
              simp only [hrt, Bool.not_true, Bool.false_eq_true, if_false] at h ⊢
              by_cases hst : exch.status ≥ 400
              · simp [hst] at h
              · simp only [hst, if_false] at h ⊢
                refine ⟨{ token := exch.data.access_token
                          expires_at := some (now + exch.data.expires_in.getD 3600) }, ?_, ?_⟩
                · simp [cacheGet_set]
                · simpa using h

theorem get_token_cached_after (settings : Settings) (tokens : TokenCache)
    (repo : Option (List TokenCredential)) (account_id : Option String) (now : Int)
    (sa : Except DriveAPIError AccessToken) (exch : ExchangeResponse) (tok : String)
    (h : (get_token settings tokens repo account_id now sa exch).result = .ok tok) :
    ∃ c, cacheGet (get_token settings tokens repo account_id now sa exch).tokens
        (resolveAccount settings account_id) = some c ∧ c.token = tok := by
  simp only [get_token] at h ⊢
  cases hc : cacheGet tokens (resolveAccount settings account_id) with
  | some cached =>
      rw [hc] at h
      cases hv : cached.is_valid now with
      | true =>
          simp only [hv, if_true] at h ⊢
          exact ⟨cached, by simpa using hc, by simpa using h⟩
      | false =>
          simp only [hv, Bool.false_eq_true, if_false] at h ⊢
          exact get_token_uncached_cached_after settings tokens repo _ now sa exch tok h
  | none =>
      rw [hc] at h
      simp only [] at h ⊢
      exact get_token_uncached_cached_after settings tokens repo _ now sa exch tok h

theorem get_token_uncached_exchanges_le_one (settings : Settings) (tokens : TokenCache)
    (repo : Option (List TokenCredential)) (acct : String) (now : Int)
    (sa : Except DriveAPIError AccessToken) (exch : ExchangeResponse) :
    (get_token.get_token_uncached settings tokens repo acct now sa exch).exchanges ≤ 1 := by
  unfold get_token.get_token_uncached
  cases hsa : strTruthy settings.googledrive_service_account_key_path with
  | true =>
      simp only [hsa, if_true]
      cases sa <;> simp
  | false =>
      simp only [hsa, Bool.false_eq_true, if_false]
      cases hsv : storedValidAccessToken repo acct now with
      | some a => simp
      | none =>
          simp only []
          cases hrt : strTruthy (pyOr (storedRefreshToken repo acct).1
              settings.googledrive_refresh_token) with
          | false => simp [hrt]
          | true =>
              simp only [hrt, Bool.not_true, Bool.false_eq_true, if_false]
              by_cases hst : exch.status ≥ 400 <;> simp [hst]

theorem get_token_exchanges_le_one (settings : Settings) (tokens : TokenCache)
    (repo : Option (List TokenCredential)) (account_id : Option String) (now : Int)
    (sa : Except DriveAPIError AccessToken) (exch : ExchangeResponse) :
    (get_token settings tokens repo account_id now sa exch).exchanges ≤ 1 := by
  simp only [get_token]
  cases hc : cacheGet tokens (resolveAccount settings account_id) with
  | some cached =>
      cases hv : cached.is_valid now with
      | true => simp [hv]
      | false =>
          simp only [hv, Bool.false_eq_true, if_false]
          exact get_token_uncached_exchanges_le_one settings tokens repo _ now sa exch
  | none =>
      simp only []
      exact get_token_uncached_exchanges_le_one settings tokens repo _ now sa exch

theorem get_token_no_cache_refresh_mode (settings : Settings) (tokens : TokenCache)
    (repo : Option (List TokenCredential)) (account_id : Option String) (now : Int)
    (sa : Except DriveAPIError AccessToken) (exch : ExchangeResponse)
    (hmiss : cacheGet tokens (resolveAccount settings account_id) = none)
    (hsa : strTruthy settings.googledrive_service_account_key_path = false) :
    (∀ a, storedValidAccessToken repo (resolveAccount settings account_id) now = some a →
        (get_token settings tokens repo account_id now sa exch).result = .ok a.token
        ∧ (get_token settings tokens repo account_id now sa exch).exchanges = 0)
    ∧ (storedValidAccessToken repo (resolveAccount settings account_id) now = none →
        strTruthy (pyOr (storedRefreshToken repo (resolveAccount settings account_id)).1
            settings.googledrive_refresh_token) = true →
        (get_token settings tokens repo account_id now sa exch).exchanges = 1)
    ∧ (storedValidAccessToken repo (resolveAccount settings account_id) now = none →
        strTruthy (pyOr (storedRefreshToken repo (resolveAccount settings account_id)).1
            settings.googledrive_refresh_token) = false →
        (get_token settings tokens repo account_id now sa exch).result
          = .error { message := "No refresh token configured for Google Drive connector"
                     status_code := 401, retriable := false }
        ∧ (get_token settings tokens repo account_id now sa exch).exchanges = 0) := by
  have hun : get_token settings tokens repo account_id now sa exch
      = get_token.get_token_uncached settings tokens repo
          (resolveAccount settings account_id) now sa exch := by
    simp [get_token, hmiss]
  rw [hun]
  unfold get_token.get_token_uncached
  simp only [hsa, Bool.false_eq_true, if_false]
  refine ⟨?_, ?_, ?_⟩
  · intro a ha
    simp [ha]
  · intro hnone hrt
    simp only [hnone, hrt, Bool.not_true, Bool.false_eq_true, if_false]
    by_cases hst : exch.status ≥ 400 <;> simp [hst]
  · intro hnone hrt
    simp [hnone, hrt]

theorem request_go_cache_none (settings : Settings) (account_id : Option String)
    (oracle : Nat → AttemptOutcome) :
    ∀ (fuel : Nat) (tokens : TokenCache) (made : Nat),
    cacheGet tokens (resolveAccount settings account_id) = none →
    cacheGet (request_go settings account_id oracle fuel tokens made).2.1
        (resolveAccount settings account_id) = none := by
  intro fuel
  induction fuel with
  | zero =>
      intro tokens made h
      simpa [request_go] using h
  | succ fuel ih =>
      intro tokens made h
      simp only [request_go]
      cases oracle (made + 1) with
      | transportError =>
          by_cases hz : fuel = 0
          · simpa [hz] using h
          · simpa [hz] using ih _ _ h
      | response status body =>
          by_cases h401 : (status == 401) = true
          · simp only [h401, if_true]
            by_cases hz : fuel = 0
            · simpa [hz, invalidate] using cacheGet_del tokens (resolveAccount settings account_id)
            · simpa [hz] using ih _ _ (by
                simpa [invalidate] using cacheGet_del tokens (resolveAccount settings account_id))
          · simp only [h401, Bool.false_eq_true, if_false]
            by_cases h5 : (status == 429 || decide (status ≥ 500)) = true
            · simp only [h5, if_true]
              by_cases hz : fuel = 0
              · simpa [hz] using h
              · simpa [hz] using ih _ _ h
            · simp only [h5, Bool.false_eq_true, if_false]
              by_cases h4 : status ≥ 400 <;> simpa [h4] using h

theorem request_go_succ_401 (settings : Settings) (account_id : Option String)
    (oracle : Nat → AttemptOutcome) (fuel : Nat) (tokens : TokenCache) (made : Nat)
    (body : String) (h401 : oracle (made + 1) = .response 401 body) (hfz : fuel ≠ 0) :
    request_go settings account_id oracle (fuel + 1) tokens made
      = request_go settings account_id oracle fuel
          (invalidate settings tokens account_id) (made + 1) := by
  simp [request_go, h401, hfz]

theorem request_go_after_401 (settings : Settings) (account_id : Option String)
    (oracle : Nat → AttemptOutcome) (body : String)
    (h401 : oracle 1 = .response 401 body) (tokens : TokenCache) :
    cacheGet (request_go settings account_id oracle requestMaxAttempts tokens 0).2.1
        (resolveAccount settings account_id) = none := by
  rw [show requestMaxAttempts = 4 + 1 from rfl]
  rw [request_go_succ_401 settings account_id oracle 4 tokens 0 body
    (by simpa using h401) (by decide)]
  exact request_go_cache_none settings account_id oracle 4 _ 1
    (by simpa [invalidate] using cacheGet_del tokens (resolveAccount settings account_id))

theorem get_token_seq_cached (settings : Settings) (tokens : TokenCache)
    (repo : Option (List TokenCredential)) (account_id : Option String)
    (sa : Except DriveAPIError AccessToken) (exch : ExchangeResponse)
    (c : AccessToken) (ts : List Int)
    (hc : cacheGet tokens (resolveAccount settings account_id) = some c)
    (hv : ∀ t ∈ ts, c.is_valid t = true) :
    get_token_seq settings tokens repo account_id sa exch ts
      = (ts.map (fun _ => .ok c.token), tokens, repo, 0) := by
  induction ts with
  | nil => simp [get_token_seq]
  | cons t rest ih =>
      have hg := get_token_cache_hit settings tokens repo account_id t sa exch c hc
        (hv t (by simp))
      simp [get_token_seq, hg, ih (fun u hu => hv u (by simp [hu]))]

theorem get_checkpoint_upsert (store : List SyncCheckpoint) (a r : String)
    (cur : Option String) (t : Option Int) :
    get_checkpoint (upsert_checkpoint store a r cur t) a r
      = some { account_id := a, resource := r, cursor := cur, last_synced_at := t } := by
  induction store with
  | nil => simp [upsert_checkpoint, get_checkpoint, List.find?]
  | cons c rest ih =>
      by_cases h : (c.account_id == a && c.resource == r) = true
      · obtain ⟨h1, h2⟩ : c.account_id = a ∧ c.resource = r := by simpa using h
        obtain ⟨ca, cr, cc, cl⟩ := c
        simp only at h1 h2
        subst h1; subst h2
        simp [upsert_checkpoint, get_checkpoint, List.find?]
      · simpa [upsert_checkpoint, get_checkpoint, List.find?, h] using ih

theorem get_credentials_upsert_found (repo : List TokenCredential) (now : Int)
    (acct access_token : String) (rt : Option String) (expires_in : Int)
    (scopes : Option String) (is_sa : Bool) (rec : TokenCredential)
    (hrec : get_credentials repo acct = some rec) :
    get_credentials (upsert_credentials repo now acct access_token rt expires_in scopes is_sa)
      acct = some (applyCredentialUpdate rec now access_token rt expires_in scopes is_sa) := by
  induction repo with
  | nil => simp [get_credentials, List.find?] at hrec
  | cons c rest ih =>
      by_cases h : (c.account_id == acct) = true
      · have hc : c = rec := by
          simpa [get_credentials, List.find?, h] using hrec
        subst hc
        simp [upsert_credentials, get_credentials, List.find?, h, applyCredentialUpdate,
          show c.account_id = acct by simpa using h]
      · have hrec' : get_credentials rest acct = some rec := by
          simpa [get_credentials, List.find?, h] using hrec
        simpa [upsert_credentials, get_credentials, List.find?, h] using ih hrec'

theorem removeChannel_append (a b : List WatchChannel) (i : String) :
    removeChannel (a ++ b) i = removeChannel a i ++ removeChannel b i := by
  simp [removeChannel, List.filter_append]

theorem removeChannels_snoc (ids : List String) (x : WatchChannel) :
    ∀ store, x.channel_id ∉ ids →
    removeChannels (store ++ [x]) ids = removeChannels store ids ++ [x] := by
  induction ids with
  | nil =>
      intro store _
      simp [removeChannels]
  | cons i rest ih =>
      intro store hx
      have hxi : ¬(x.channel_id = i) := fun h => hx (by simp [h])
      simp only [removeChannels, List.foldl_cons] at ih ⊢
      rw [removeChannel_append, show removeChannel [x] i = [x] by simp [removeChannel, hxi]]
      exact ih (removeChannel store i) (fun h => hx (by simp [h]))

theorem removeChannels_eq_filter (ids : List String) : ∀ (store : List WatchChannel),
    removeChannels store ids = store.filter (fun c => !(ids.contains c.channel_id)) := by
  induction ids with
  | nil =>
      intro store
      simp [removeChannels]
  | cons i rest ih =>
      intro store
      simp only [removeChannels, List.foldl_cons] at ih ⊢
      rw [ih (removeChannel store i), removeChannel, List.filter_filter]
      apply List.filter_congr
      intro x hx
      by_cases hxi : x.channel_id = i
      · simp [hxi]
      · simp [hxi]

theorem newsFrom_succ (f : Nat → WatchChannel) (i n : Nat) :
    newsFrom f i (n + 1) = f i :: newsFrom f (i + 1) n := by
  simp only [newsFrom, List.range_succ_eq_map, List.map_cons, List.map_map, Nat.add_zero]
  congr 1
  apply List.map_congr_left
  intro a _
  simp only [Function.comp_apply]
  congr 1
  omega

theorem renew_go_all_ok (now threshold : Int) (f : Nat → WatchChannel)
    (steps : Nat → RenewStep) (hsteps : ∀ j, steps j = .ok (f j)) :
    ∀ (snapshot : List WatchChannel),
    (∀ j, (f j).channel_id ∉ (dueChannels now threshold snapshot).map
        (fun c => c.channel_id)) →
    ∀ (store : List WatchChannel) (i : Nat) (renewed : List String),
    renew_go now threshold steps snapshot store i renewed
      = (.ok (renewed.reverse
            ++ (newsFrom f i (dueChannels now threshold snapshot).length).map
              (fun c => c.channel_id)),
         removeChannels store ((dueChannels now threshold snapshot).map
            (fun c => c.channel_id))
           ++ newsFrom f i (dueChannels now threshold snapshot).length) := by
  intro snapshot
  induction snapshot with
  | nil =>
      intro _ store i renewed
      simp [renew_go, dueChannels, newsFrom, removeChannels]
  | cons c rest ih =>
      intro hfresh store i renewed
      cases hdue : needsRenewal c now threshold with
      | false =>
          have hdl : dueChannels now threshold (c :: rest)
              = dueChannels now threshold rest := by
            simp [dueChannels, hdue]
          have hfresh1 : ∀ j, (f j).channel_id ∉ (dueChannels now threshold rest).map
              (fun q => q.channel_id) := by
            intro j
            have hj := hfresh j
            rw [hdl] at hj
            exact hj
          simp only [renew_go, hdue, Bool.false_eq_true, if_false]
          rw [ih hfresh1 store i renewed, hdl]
      | true =>
          have hdl : dueChannels now threshold (c :: rest)
              = c :: dueChannels now threshold rest := by
            simp [dueChannels, hdue]
          have hfresh1 : ∀ j, (f j).channel_id ∉ (dueChannels now threshold rest).map
              (fun q => q.channel_id) := by
            intro j
            have hj := hfresh j
            rw [hdl] at hj
            simp only [List.map_cons, List.mem_cons] at hj
            exact fun hmem => hj (Or.inr hmem)
          simp only [renew_go, hdue, if_true, hsteps i]
          rw [ih hfresh1 (removeChannel store c.channel_id ++ [f i]) (i + 1)
            ((f i).channel_id :: renewed), hdl]
          rw [Prod.mk.injEq]
          constructor
          · simp [newsFrom_succ, List.reverse_cons, List.append_assoc]
          · rw [removeChannels_snoc _ _ _ (hfresh1 i)]
            have hstep : removeChannels (removeChannel store c.channel_id)
                ((dueChannels now threshold rest).map (fun q => q.channel_id))
                = removeChannels store (c.channel_id
                    :: (dueChannels now threshold rest).map (fun q => q.channel_id)) := rfl
            rw [hstep]
            simp [newsFrom_succ, List.append_assoc]

theorem contains_due_ids (now threshold : Int) (store : List WatchChannel)
    (hnodup : (store.map (fun c => c.channel_id)).Nodup) (c : WatchChannel)
    (hc : c ∈ store) :
    ((dueChannels now threshold store).map (fun q => q.channel_id)).contains c.channel_id
      = needsRenewal c now threshold := by
  cases hdue : needsRenewal c now threshold with
  | true =>
      have hmem : c.channel_id ∈ (dueChannels now threshold store).map
          (fun q => q.channel_id) :=
        List.mem_map_of_mem _ (by simp [dueChannels, List.mem_filter, hc, hdue])
      simpa using hmem
  | false =>
      have hnot : c.channel_id ∉ (dueChannels now threshold store).map
          (fun q => q.channel_id) := by
        intro hmem
        obtain ⟨d, hd, hid⟩ := List.mem_map.mp hmem
        obtain ⟨hdstore, hddue⟩ : d ∈ store ∧ needsRenewal d now threshold = true := by
          simpa [dueChannels, List.mem_filter] using hd
        have hdc : d = c := List.inj_on_of_nodup_map hnodup hdstore hc hid
        rw [hdc, hdue] at hddue
        exact Bool.noConfusion hddue
      simpa using hnot

/-! ## Claim theorems -/

/-- C3: if `sync_changes` runs on a resource whose checkpoint already holds a
truthy cursor and the change-page fetch raises (retriable exhausted or
fatal), then the error is propagated unchanged and the checkpoint store is
left exactly as it was, so the next sync attempt resumes from the old
cursor (files.py:117-124). -/
theorem sync_changes_failed_fetch (store : List SyncCheckpoint)
    (account_id resource : String) (page_size : Nat) (now : Int)
    (startResp : Except DriveAPIError String) (e : DriveAPIError)
    (cp : SyncCheckpoint)
    (hcp : get_checkpoint store account_id resource = some cp)
    (hcur : strTruthy cp.cursor = true) :
    sync_changes store account_id resource page_size now startResp (.error e)
      = (.error e, store, [.listChanges (cp.cursor.getD "") page_size]) := by
  simp [sync_changes, hcp, hcur]

/-- Witness for C3 at a concrete input. -/
theorem sync_changes_failed_fetch_witness :
    sync_changes [⟨"acct", "files", some "cur-1", some 5⟩] "acct" "files" 100 7
        (.ok "start") (.error ⟨"boom", 503, true⟩)
      = (.error ⟨"boom", 503, true⟩, [⟨"acct", "files", some "cur-1", some 5⟩],
         [.listChanges "cur-1" 100]) :=
  sync_changes_failed_fetch _ _ _ _ _ _ _ ⟨"acct", "files", some "cur-1", some 5⟩
    (by rfl) (by decide)

/-- C4: a `sync_changes` call on a resource whose checkpoint holds a cursor
fetches exactly one page with that cursor; the new cursor is the new-start
token when truthy, else the next-page token when truthy; the new cursor and
the current timestamp are persisted unconditionally (the payload, including
an empty changes list, is universally quantified); the result carries
`initialised := false` and `has_more` = whether a next-page token was present
(files.py:117-137). -/
theorem sync_changes_steady_state (store : List SyncCheckpoint)
    (account_id resource : String) (page_size : Nat) (now : Int)
    (startResp : Except DriveAPIError String) (payload : ChangesPayload)
    (cp : SyncCheckpoint)
    (hcp : get_checkpoint store account_id resource = some cp)
    (hcur : strTruthy cp.cursor = true) :
    (sync_changes store account_id resource page_size now startResp (.ok payload)).2.2
        = [.listChanges (cp.cursor.getD "") page_size]
    ∧ ((sync_changes store account_id resource page_size now startResp (.ok payload)).1
        = .ok { changes := payload.changes
                cursor := (pyOr payload.newStartPageToken
                  (pyOr payload.nextPageToken (some (cp.cursor.getD "")))).getD ""
                initialised := false
                has_more := strTruthy payload.nextPageToken })
    ∧ (get_checkpoint
          (sync_changes store account_id resource page_size now startResp (.ok payload)).2.1
          account_id resource
        = some { account_id := account_id, resource := resource
                 cursor := some ((pyOr payload.newStartPageToken
                   (pyOr payload.nextPageToken (some (cp.cursor.getD "")))).getD "")
                 last_synced_at := some now })
    ∧ (strTruthy payload.newStartPageToken = true →
        (pyOr payload.newStartPageToken
            (pyOr payload.nextPageToken (some (cp.cursor.getD "")))).getD ""
          = payload.newStartPageToken.getD "")
    ∧ (strTruthy payload.newStartPageToken = false →
        strTruthy payload.nextPageToken = true →
        (pyOr payload.newStartPageToken
            (pyOr payload.nextPageToken (some (cp.cursor.getD "")))).getD ""
          = payload.nextPageToken.getD "") := by
  refine ⟨?_, ?_, ?_, ?_, ?_⟩
  · simp [sync_changes, hcp, hcur]
  · simp [sync_changes, hcp, hcur]
  · simp [sync_changes, hcp, hcur, get_checkpoint_upsert]
  · intro h1
    simp [pyOr, h1]
  · intro h1 h2
    simp [pyOr, h1, h2]

/-- Witness for C4 at a concrete input (one change, a next-page token and no
new-start token). -/
theorem sync_changes_steady_state_witness :
    (sync_changes [⟨"acct", "files", some "start-token", none⟩] "acct" "files" 100 9
        (.ok "unused") (.ok ⟨["abc"], none, some "cursor-2"⟩)).2.2
        = [.listChanges "start-token" 100]
    ∧ ((sync_changes [⟨"acct", "files", some "start-token", none⟩] "acct" "files" 100 9
        (.ok "unused") (.ok ⟨["abc"], none, some "cursor-2"⟩)).1
        = .ok { changes := ["abc"], cursor := "cursor-2", initialised := false
                has_more := true }) := by
  have h := sync_changes_steady_state [⟨"acct", "files", some "start-token", none⟩]
    "acct" "files" 100 9 (.ok "unused") ⟨["abc"], none, some "cursor-2"⟩
    ⟨"acct", "files", some "start-token", none⟩ (by rfl) (by decide)
  exact ⟨h.1, by simpa [pyOr, strTruthy] using h.2.1⟩

/-- C5: whenever `sync_changes` is called and no checkpoint exists for the
resource (or its cursor is absent/empty), the start-page-token endpoint is
called once, the returned token is persisted as the cursor with the current
timestamp, no change records are fetched, and the result is
`{changes := [], cursor := token, initialised := true, has_more := false}`.
The pre-state is universally quantified, so this holds every time the
uninitialized state is attempted (files.py:105-115). -/
theorem sync_changes_initialisation (store : List SyncCheckpoint)
    (account_id resource : String) (page_size : Nat) (now : Int) (tok : String)
    (changesResp : Except DriveAPIError ChangesPayload)
    (huninit : (match get_checkpoint store account_id resource with
                | none => true
                | some cp => !(strTruthy cp.cursor)) = true) :
    sync_changes store account_id resource page_size now (.ok tok) changesResp
      = (.ok { changes := [], cursor := tok, initialised := true, has_more := false },
         upsert_checkpoint store account_id resource (some tok) (some now),
         [.getStartPageToken])
    ∧ get_checkpoint (upsert_checkpoint store account_id resource (some tok) (some now))
        account_id resource
      = some { account_id := account_id, resource := resource
               cursor := some tok, last_synced_at := some now } := by
  constructor
  · simp only [sync_changes]
    split
    · rfl
    · rename_i hfalse
      exact absurd huninit (by simpa using hfalse)
  · exact get_checkpoint_upsert store account_id resource (some tok) (some now)

/-- Witness for C5 at a concrete input (no checkpoint at all). -/
theorem sync_changes_initialisation_witness :
    sync_changes [] "acct" "files" 100 3 (.ok "start-token")
        (.ok ⟨["ignored"], none, some "next"⟩)
      = (.ok { changes := [], cursor := "start-token", initialised := true
               has_more := false },
         [⟨"acct", "files", some "start-token", some 3⟩],
         [.getStartPageToken]) :=
  (sync_changes_initialisation [] "acct" "files" 100 3 "start-token"
    (.ok ⟨["ignored"], none, some "next"⟩) (by rfl)).1

/-- C7: `ensure_valid_channel` fails with a `PermissionError` when the channel
is unknown locally; when the channel is known and stores a (nonempty) secret,
it succeeds exactly when the presented token equals that secret, failing for
every other value including the empty string and `None`; when the known
channel stores no secret (null, or the empty string, which the truthiness test in the source treats as no secret), every presented token passes
(watch.py:108-114). -/
theorem watch_token_matching (channels : List WatchChannel) (channel_id : String) :
    (get_channel channels channel_id = none →
      ∀ tok, ensure_valid_channel channels channel_id tok = .error "Unknown channel")
    ∧ (∀ record s, get_channel channels channel_id = some record →
        record.token = some s → s ≠ "" →
        ∀ tok, (ensure_valid_channel channels channel_id tok = .ok record ↔ tok = some s))
    ∧ (∀ record, get_channel channels channel_id = some record →
        (record.token = none ∨ record.token = some "") →
        ∀ tok, ensure_valid_channel channels channel_id tok = .ok record) := by
  refine ⟨?_, ?_, ?_⟩
  · intro hnone tok
    simp [ensure_valid_channel, hnone]
  · intro record s hrec hs hne tok
    by_cases htok : tok = some s
    · subst htok
      simp [ensure_valid_channel, hrec, hs, strTruthy, hne]
    · constructor
      · intro hok
        by_contra
        have : ensure_valid_channel channels channel_id tok = .error "Invalid channel token" := by
          simp [ensure_valid_channel, hrec, hs, strTruthy, hne, htok]
        simp [this] at hok
      · intro h
        exact absurd h htok
  · intro record hrec hnul tok
    rcases hnul with h | h
    · simp [ensure_valid_channel, hrec, h, strTruthy]
    · simp [ensure_valid_channel, hrec, h, strTruthy]

/-- Witness for C7 at concrete inputs: a channel with secret `"sec"`, a
channel with no secret, and an unknown channel id. -/
theorem watch_token_matching_witness :
    ensure_valid_channel [⟨"ch1", none, none, none, some "sec", "acct", "changes"⟩]
        "ch1" (some "sec")
      = .ok ⟨"ch1", none, none, none, some "sec", "acct", "changes"⟩
    ∧ ensure_valid_channel [⟨"ch1", none, none, none, some "sec", "acct", "changes"⟩]
        "ch1" none = .error "Invalid channel token"
    ∧ ensure_valid_channel [⟨"ch1", none, none, none, some "sec", "acct", "changes"⟩]
        "ch1" (some "") = .error "Invalid channel token"
    ∧ ensure_valid_channel [⟨"ch2", none, none, none, none, "acct", "changes"⟩]
        "ch2" (some "anything")
      = .ok ⟨"ch2", none, none, none, none, "acct", "changes"⟩
    ∧ ensure_valid_channel [] "ghost" (some "sec") = .error "Unknown channel" := by
  have h1 := watch_token_matching
    [⟨"ch1", none, none, none, some "sec", "acct", "changes"⟩] "ch1"
  have h2 := watch_token_matching
    [⟨"ch2", none, none, none, none, "acct", "changes"⟩] "ch2"
  have h3 := watch_token_matching ([] : List WatchChannel) "ghost"
  refine ⟨?_, by rfl, by rfl, ?_, ?_⟩
  · exact (h1.2.1 _ "sec" (by rfl) (by rfl) (by decide) (some "sec")).mpr rfl
  · exact h2.2.2 _ (by rfl) (Or.inl rfl) (some "anything")
  · exact h3.1 (by rfl) (some "sec")

/-- C10: a stored credential whose refresh token is non-null keeps that
refresh token across any `upsert_credentials` call whose `refresh_token`
argument is falsy (`None`, as the service-account path passes, or the empty
string): a persisted refresh token is only ever overwritten by a truthy
replacement and is never cleared (token_store.py:34-41). -/
theorem upsert_preserves_refresh_token (repo : List TokenCredential) (now : Int)
    (acct access_token : String) (rt : Option String) (expires_in : Int)
    (scopes : Option String) (is_sa : Bool) (rec : TokenCredential) (r : String)
    (hrec : get_credentials repo acct = some rec)
    (hr : rec.refresh_token = some r)
    (hrt : strTruthy rt = false) :
    (get_credentials (upsert_credentials repo now acct access_token rt expires_in scopes is_sa)
        acct).map (fun q => q.refresh_token) = some (some r) := by
  rw [get_credentials_upsert_found repo now acct access_token rt expires_in scopes is_sa rec hrec]
  simp [applyCredentialUpdate, hrt, hr]

/-- Witness for C10: the service-account style upsert (`refresh_token := none`)
over a stored credential with refresh token `"rt-1"`. -/
theorem upsert_preserves_refresh_token_witness :
    (get_credentials
        (upsert_credentials [⟨"acct", some "old-at", some "rt-1", some 50, none, false⟩]
          100 "acct" "new-at" none 3600 (some "scope-a") true)
        "acct").map (fun q => q.refresh_token) = some (some "rt-1") :=
  upsert_preserves_refresh_token
    [⟨"acct", some "old-at", some "rt-1", some 50, none, false⟩]
    100 "acct" "new-at" none 3600 (some "scope-a") true
    ⟨"acct", some "old-at", some "rt-1", some 50, none, false⟩ "rt-1"
    (by rfl) (by rfl) (by rfl)

/-- C6: across any sequence of `get_token` calls for the same account, a
first call that returns a token followed by calls at times where the cached
entry stays valid returns the identical token string on every call, performs
no further token exchange and no repository I/O (cache and repository are
unchanged), and the whole sequence performs at most one exchange — that of the first call, which itself performs at most one (googledrive.py:44-50,71-76). -/
theorem token_caching_sequence (settings : Settings) (tokens : TokenCache)
    (repo : Option (List TokenCredential)) (account_id : Option String) (now0 : Int)
    (sa : Except DriveAPIError AccessToken) (exch : ExchangeResponse)
    (ts : List Int) (tok : String) (c : AccessToken)
    (h1 : (get_token settings tokens repo account_id now0 sa exch).result = .ok tok)
    (h2 : cacheGet (get_token settings tokens repo account_id now0 sa exch).tokens
        (resolveAccount settings account_id) = some c)
    (hv : ∀ t ∈ ts, c.is_valid t = true) :
    c.token = tok
    ∧ get_token_seq settings
        (get_token settings tokens repo account_id now0 sa exch).tokens
        (get_token settings tokens repo account_id now0 sa exch).repo account_id sa exch ts
      = (ts.map (fun _ => .ok tok),
         (get_token settings tokens repo account_id now0 sa exch).tokens,
         (get_token settings tokens repo account_id now0 sa exch).repo, 0)
    ∧ (get_token settings tokens repo account_id now0 sa exch).exchanges ≤ 1 := by
  obtain ⟨c2, hc2, htok⟩ :=
    get_token_cached_after settings tokens repo account_id now0 sa exch tok h1
  have hcc : c = c2 := by
    rw [h2] at hc2
    exact Option.some.inj hc2.symm |>.symm
  subst hcc
  refine ⟨htok, ?_, get_token_exchanges_le_one settings tokens repo account_id now0 sa exch⟩
  rw [← htok]
  exact get_token_seq_cached settings _ _ account_id sa exch c ts h2 hv

/-- Witness for C6: a first call that exchanges for `tok-1` (one exchange),
then two further calls inside the validity window returning the same token
with zero exchanges and the state untouched. -/
theorem token_caching_sequence_witness :
    ((⟨"tok-1", some 3600⟩ : AccessToken).token = "tok-1")
    ∧ get_token_seq settingsFx
        (get_token settingsFx [] none none 0 saFx exchFx).tokens
        (get_token settingsFx [] none none 0 saFx exchFx).repo none saFx exchFx [100, 200]
      = ([.ok "tok-1", .ok "tok-1"],
         (get_token settingsFx [] none none 0 saFx exchFx).tokens,
         (get_token settingsFx [] none none 0 saFx exchFx).repo, 0)
    ∧ (get_token settingsFx [] none none 0 saFx exchFx).exchanges ≤ 1 :=
  token_caching_sequence settingsFx [] none none 0 saFx exchFx [100, 200] "tok-1"
    ⟨"tok-1", some 3600⟩ (by rfl) (by decide) (by decide)

/-- C2: a pipeline call against an endpoint that always answers `503` is
attempted exactly 5 times (the configured maximum), after which the call
raises — but what escapes is the tenacity `RetryError` wrapping the last
`DriveRetriableError` with status 503, not a fatal `DriveAPIError`: the
`raise DriveAPIError("Failed to complete request after retries", ...)` at
googledrive.py:299 that was meant to surface the exhaustion as a fatal error
is unreachable, because tenacity raises `RetryError` out of the `async for`
itself (googledrive.py:243-299). -/
theorem retry_exhaustion_503 (settings : Settings) (tokens : TokenCache)
    (repo : Option (List TokenCredential)) (account_id : Option String) (now : Int)
    (sa : Except DriveAPIError AccessToken) (exch : ExchangeResponse) (body : String)
    (cached : AccessToken)
    (hcache : cacheGet tokens (resolveAccount settings account_id) = some cached)
    (hvalid : cached.is_valid now = true) :
    (drive_request settings tokens repo account_id now sa exch
        (fun _ => .response 503 body)).attempts = 5
    ∧ (drive_request settings tokens repo account_id now sa exch
        (fun _ => .response 503 body)).result
      = .retryError (.api { message := "Drive API throttled or server error"
                            status_code := 503, retriable := true })
    ∧ ∀ e, (drive_request settings tokens repo account_id now sa exch
        (fun _ => .response 503 body)).result ≠ .fatal e := by
  have hg := get_token_cache_hit settings tokens repo account_id now sa exch cached
    hcache hvalid
  refine ⟨?_, ?_, ?_⟩ <;>
    simp [drive_request, hg, requestMaxAttempts, request_go]

/-- Witness for C2: a concrete run with a valid cached token against an
always-503 endpoint. -/
theorem retry_exhaustion_503_witness :
    (drive_request settingsFx [("acct", ⟨"cached-tok", none⟩)] none none 0 saFx exchFx
        (fun _ => .response 503 "oops")).attempts = 5
    ∧ (drive_request settingsFx [("acct", ⟨"cached-tok", none⟩)] none none 0 saFx exchFx
        (fun _ => .response 503 "oops")).result
      = .retryError (.api { message := "Drive API throttled or server error"
                            status_code := 503, retriable := true })
    ∧ ∀ e, (drive_request settingsFx [("acct", ⟨"cached-tok", none⟩)] none none 0 saFx exchFx
        (fun _ => .response 503 "oops")).result ≠ .fatal e :=
  retry_exhaustion_503 settingsFx [("acct", ⟨"cached-tok", none⟩)] none none 0 saFx exchFx
    "oops" ⟨"cached-tok", none⟩ (by decide) (by decide)

/-- C1 counterexample: account `"acct"` has the in-memory cached token
`"stale"` and a stored credential carrying that same access token, not yet
expired. A pipeline request answers 401 on its first attempt (then 200); the
cache entry is indeed invalidated — but the very next `get_token` serves the
stale string `"stale"` straight from the credential store with zero token
exchanges, contradicting the claim that the next `get_token` performs a
fresh exchange and never again returns the stale token. -/
theorem stale_token_after_401_counterexample :
    (drive_request settingsFx [("acct", ⟨"stale", some 10000⟩)] (some repoFx) none 0
        saFx exchFx oracle401Fx).tokens = []
    ∧ (drive_request settingsFx [("acct", ⟨"stale", some 10000⟩)] (some repoFx) none 0
        saFx exchFx oracle401Fx).repo = some repoFx
    ∧ (get_token settingsFx [] (some repoFx) none 1 saFx exchFx).result = .ok "stale"
    ∧ (get_token settingsFx [] (some repoFx) none 1 saFx exchFx).exchanges = 0 :=
  ⟨by decide, by decide, by rfl, by decide⟩

/-- C1 (amended): after a pipeline request whose first attempt receives a
401, the in-memory cached token for the account is invalidated (the cache
holds no entry for it, so no later call can serve from it); the next
`get_token` call (in refresh-token mode) then performs exactly one fresh
token exchange — unless the credential store still holds a valid access
token for the account, in which case that stored token (possibly the same
stale string) is returned with zero exchanges, or no refresh token exists
anywhere, in which case an authorization error is raised with zero
exchanges (googledrive.py:93-104,268-275). -/
theorem get_token_after_invalidation (settings : Settings) (tokens : TokenCache)
    (repo : Option (List TokenCredential)) (account_id : Option String)
    (now0 now1 : Int) (sa sa2 : Except DriveAPIError AccessToken)
    (exch exch2 : ExchangeResponse) (body : String) (oracle : Nat → AttemptOutcome)
    (tok0 : String)
    (hstart : (get_token settings tokens repo account_id now0 sa exch).result = .ok tok0)
    (h401 : oracle 1 = .response 401 body)
    (hsa : strTruthy settings.googledrive_service_account_key_path = false) :
    cacheGet (drive_request settings tokens repo account_id now0 sa exch oracle).tokens
        (resolveAccount settings account_id) = none
    ∧ (∀ a, storedValidAccessToken
          (drive_request settings tokens repo account_id now0 sa exch oracle).repo
          (resolveAccount settings account_id) now1 = some a →
        (get_token settings
            (drive_request settings tokens repo account_id now0 sa exch oracle).tokens
            (drive_request settings tokens repo account_id now0 sa exch oracle).repo
            account_id now1 sa2 exch2).result = .ok a.token
        ∧ (get_token settings
            (drive_request settings tokens repo account_id now0 sa exch oracle).tokens
            (drive_request settings tokens repo account_id now0 sa exch oracle).repo
            account_id now1 sa2 exch2).exchanges = 0)
    ∧ (storedValidAccessToken
          (drive_request settings tokens repo account_id now0 sa exch oracle).repo
          (resolveAccount settings account_id) now1 = none →
        strTruthy (pyOr (storedRefreshToken
              (drive_request settings tokens repo account_id now0 sa exch oracle).repo
              (resolveAccount settings account_id)).1
            settings.googledrive_refresh_token) = true →
        (get_token settings
            (drive_request settings tokens repo account_id now0 sa exch oracle).tokens
            (drive_request settings tokens repo account_id now0 sa exch oracle).repo
            account_id now1 sa2 exch2).exchanges = 1)
    ∧ (storedValidAccessToken
          (drive_request settings tokens repo account_id now0 sa exch oracle).repo
          (resolveAccount settings account_id) now1 = none →
        strTruthy (pyOr (storedRefreshToken
              (drive_request settings tokens repo account_id now0 sa exch oracle).repo
              (resolveAccount settings account_id)).1
            settings.googledrive_refresh_token) = false →
        (get_token settings
            (drive_request settings tokens repo account_id now0 sa exch oracle).tokens
            (drive_request settings tokens repo account_id now0 sa exch oracle).repo
            account_id now1 sa2 exch2).result
          = .error { message := "No refresh token configured for Google Drive connector"
                     status_code := 401, retriable := false }
        ∧ (get_token settings
            (drive_request settings tokens repo account_id now0 sa exch oracle).tokens
            (drive_request settings tokens repo account_id now0 sa exch oracle).repo
            account_id now1 sa2 exch2).exchanges = 0) := by
  have hmiss : cacheGet
      (drive_request settings tokens repo account_id now0 sa exch oracle).tokens
      (resolveAccount settings account_id) = none := by
    simp only [drive_request, hstart]
    exact request_go_after_401 settings account_id oracle body h401 _
  have h3 := get_token_no_cache_refresh_mode settings
    (drive_request settings tokens repo account_id now0 sa exch oracle).tokens
    (drive_request settings tokens repo account_id now0 sa exch oracle).repo
    account_id now1 sa2 exch2 hmiss hsa
  exact ⟨hmiss, h3.1, h3.2.1, h3.2.2⟩

/-- Witness for C1 (amended), at the concrete input of the counterexample: the
cache entry is gone after the 401, and the store still holds a valid access
token, so the next `get_token` returns it with zero exchanges. -/
theorem get_token_after_invalidation_witness :
    cacheGet (drive_request settingsFx [("acct", ⟨"stale", some 10000⟩)] (some repoFx)
        none 0 saFx exchFx oracle401Fx).tokens "acct" = none
    ∧ (get_token settingsFx
        (drive_request settingsFx [("acct", ⟨"stale", some 10000⟩)] (some repoFx)
          none 0 saFx exchFx oracle401Fx).tokens
        (drive_request settingsFx [("acct", ⟨"stale", some 10000⟩)] (some repoFx)
          none 0 saFx exchFx oracle401Fx).repo
        none 1 saFx exchFx).result = .ok "stale" := by
  have h := get_token_after_invalidation settingsFx [("acct", ⟨"stale", some 10000⟩)]
    (some repoFx) none 0 1 saFx saFx exchFx exchFx "" oracle401Fx "stale"
    (by rfl) (by decide) (by decide)
  refine ⟨by simpa using h.1, ?_⟩
  have hstored : storedValidAccessToken
      (drive_request settingsFx [("acct", ⟨"stale", some 10000⟩)] (some repoFx)
        none 0 saFx exchFx oracle401Fx).repo "acct" 1
      = some ⟨"stale", some 10000⟩ := by decide
  have := h.2.1 ⟨"stale", some 10000⟩ (by simpa using hstored)
  simpa using this.1

/-- C8: when every delete-and-re-register step succeeds, `renew_channels`
deletes and re-registers exactly the channels whose expiration is within
`threshold` of `now` or already past (in scan order, returning their fresh
ids), leaves every other channel untouched in the store, and a channel with
a null expiration never passes the renewal guard (watch.py:116-126). The
channel ids in the store are assumed distinct (the column is unique) and the
freshly registered ids distinct from the renewed ones (they are random). -/
theorem renewal_selection (store : List WatchChannel) (now threshold : Int)
    (steps : Nat → RenewStep) (f : Nat → WatchChannel)
    (hsteps : ∀ j, steps j = .ok (f j))
    (hfresh : ∀ j, (f j).channel_id ∉ (dueChannels now threshold store).map
        (fun c => c.channel_id))
    (hnodup : (store.map (fun c => c.channel_id)).Nodup) :
    renew_channels store now threshold steps
      = (.ok ((newsFrom f 0 (dueChannels now threshold store).length).map
            (fun c => c.channel_id)),
         store.filter (fun c => !(needsRenewal c now threshold))
           ++ newsFrom f 0 (dueChannels now threshold store).length)
    ∧ (∀ c : WatchChannel, c.expiration = none →
        needsRenewal c now threshold = false) := by
  constructor
  · rw [renew_channels, renew_go_all_ok now threshold f steps hsteps store hfresh store 0 [],
      removeChannels_eq_filter]
    have hfc : store.filter (fun c =>
        !(((dueChannels now threshold store).map (fun q => q.channel_id)).contains
            c.channel_id))
        = store.filter (fun c => !(needsRenewal c now threshold)) :=
      List.filter_congr (fun c hc => by
        rw [contains_due_ids now threshold store hnodup c hc])
    rw [hfc]
    simp
  · intro c hc
    simp [needsRenewal, hc]

/-- Witness for C8, the concrete instance of the claim: channels expiring an
hour ago, in half an hour, and in ten hours, with a one-hour threshold —
exactly the first two are renewed (fresh ids `n1`, `n2`), the third remains. -/
theorem renewal_selection_witness :
    renew_channels [chanFx 0, chanFx 1, chanFx 2] 0 3600 (fun j => .ok (newChanFx j))
      = (.ok ["n1", "n2"], [chanFx 2, newChanFx 0, newChanFx 1]) := by
  have h := renewal_selection [chanFx 0, chanFx 1, chanFx 2] 0 3600
    (fun j => .ok (newChanFx j)) newChanFx (fun j => rfl)
    (by
      intro j
      rcases j with _ | _ | j
      · decide
      · decide
      · show ("nx" : String) ∉ List.map (fun c => c.channel_id)
          (dueChannels 0 3600 [chanFx 0, chanFx 1, chanFx 2])
        decide)
    (by decide)
  rw [h.1]
  rfl

/-- C9 counterexample: two channels both due for renewal; the first renews
(fresh id `n1`), re-registration of the second fails. The caller receives
the raised error — not the list `["n1"]` of ids renewed before the failure,
which the source discards when the exception escapes (watch.py:116-126). -/
theorem renewal_partial_failure_counterexample :
    (renew_channels [chanFx 0, chanFx 1] 0 3600
        (fun j => if j == 0 then .ok (newChanFx 0)
                  else .registerFails ⟨"boom", 500, true⟩)).1
      = .error ⟨"boom", 500, true⟩
    ∧ (renew_channels [chanFx 0, chanFx 1] 0 3600
        (fun j => if j == 0 then .ok (newChanFx 0)
                  else .registerFails ⟨"boom", 500, true⟩)).1
      ≠ .ok ["n1"]
    ∧ (renew_channels [chanFx 0, chanFx 1] 0 3600
        (fun j => if j == 0 then .ok (newChanFx 0)
                  else .registerFails ⟨"boom", 500, true⟩)).2
      = [newChanFx 0] := by
  refine ⟨by rfl, ?_, by rfl⟩
  intro hcontra
  exact Except.noConfusion hcontra

/-- C9 (amended): renewal is not atomic across channels — when a step fails
partway through, the channels fully processed before the failure remain
renewed (old row gone, fresh row present), channels not yet reached are
untouched, the channel whose re-registration failed after its deletion
succeeded is deleted without a replacement, and the error propagates to the
caller: the ids renewed before the failure are not returned
(watch.py:73-82,116-126). -/
theorem renewal_partial_failure (c1 c2 c3 n1 : WatchChannel) (e : DriveAPIError)
    (now threshold : Int) (steps : Nat → RenewStep)
    (h1 : needsRenewal c1 now threshold = true)
    (h2 : needsRenewal c2 now threshold = true)
    (_h3 : needsRenewal c3 now threshold = false)
    (hs0 : steps 0 = .ok n1)
    (hs1 : steps 1 = .registerFails e)
    (hid21 : c2.channel_id ≠ c1.channel_id)
    (hid31 : c3.channel_id ≠ c1.channel_id)
    (hidn2 : n1.channel_id ≠ c2.channel_id)
    (hid32 : c3.channel_id ≠ c2.channel_id) :
    renew_channels [c1, c2, c3] now threshold steps = (.error e, [c3, n1]) := by
  simp [renew_channels, renew_go, h1, h2, hs0, hs1, removeChannel,
    hid21, hid31, hidn2, hid32]

/-- Witness for C9 (amended) at a concrete input: channel `c1` is renewed to
`n1`, channel `c2` is deleted but its re-registration fails, channel `c3` is
untouched; the error escapes with no id list. -/
theorem renewal_partial_failure_witness :
    renew_channels [chanFx 0, chanFx 1, chanFx 2] 0 3600
        (fun j => if j == 0 then .ok (newChanFx 0)
                  else .registerFails ⟨"boom", 500, true⟩)
      = (.error ⟨"boom", 500, true⟩, [chanFx 2, newChanFx 0]) :=
  renewal_partial_failure (chanFx 0) (chanFx 1) (chanFx 2) (newChanFx 0)
    ⟨"boom", 500, true⟩ 0 3600 _
    (by decide) (by decide) (by decide) (by rfl) (by rfl)
    (by decide) (by decide) (by decide) (by decide)

end GDrive
